import Mathlib

/-!
Verification of the resilient fetch layer of `football_app` (src/app.py).

The development shallowly embeds the parts of `src/app.py` that the
specification talks about:

* `get_with_retries` (app.py lines 104-121): retry loop with exponential
  backoff on HTTP 429, immediate re-raise on other HTTP errors, and no
  handler at all for transport-level exceptions (those escape the `try`).
* the `/matches` view (app.py lines 148-198): form validation, upstream
  fetch, reshaping of the upstream JSON into match summaries, and error
  reporting.
* the decorator stack on the `/matches` view: in the source,
  `@cache.cached(timeout=300, query_string=True)` is written ABOVE
  `@app.route('/matches', methods=['POST'])`.  Python applies decorators
  bottom-up, and Flask `route` registers the function it receives, so the
  function registered as the view is the UNWRAPPED one; the cached wrapper
  is only bound to the module-level name and is never dispatched to.
* the admission limiter configured at app.py lines 60-64 with
  `default_limits=["200 per day", "50 per hour"]`, keyed by the remote
  address.  Its enforcement lives in the external `flask_limiter` library,
  so the fixed-window counting is modelled from the spec (section 4.3).

The upstream network is modelled as a function from the attempt index to
the outcome of that attempt: either a response (status code plus body) or
a transport-level failure (connection refused / timeout), which in Python
is an exception that is not an `HTTPError`.
-/

/-- Outcome of a single `requests.get` call: either a response carrying a
status code and a (parsed) body, or a transport-level exception
(`ConnectionError`, `Timeout`, ...), which is not an `HTTPError`. -/
inductive Attempt (β : Type) where
  | resp (status : Nat) (body : β)
  | transport (msg : String)
  deriving Repr, DecidableEq

/-- A response as returned by `get_with_retries`: status code and body. -/
structure Response (β : Type) where
  status : Nat
  body : β
  deriving Repr, DecidableEq

/-- The distinguishable failure kinds of the fetch layer:
`httpError` models the re-raised `requests.exceptions.HTTPError` for a
non-429 error status (surfacing the status and body),
`transportError` models a transport exception escaping the loop, and
`retryExhausted` models `Exception("Max retries exceeded")`. -/
inductive FetchError (β : Type) where
  | httpError (status : Nat) (body : β)
  | transportError (msg : String)
  | retryExhausted
  deriving Repr, DecidableEq

/-- `response.raise_for_status()` raises exactly for status codes in
[400, 600). -/
def isErrorStatus (s : Nat) : Bool := 400 ≤ s && s < 600

/-- Full observable behaviour of one `get_with_retries` call: the result
(returned response or raised exception), the number of upstream `GET`
calls issued, and the list of `time.sleep` durations, in order. -/
structure FetchTrace (β : Type) where
  result : Except (FetchError β) (Response β)
  calls : Nat
  sleeps : List Nat
  deriving Repr

/-- The retry loop body of `get_with_retries` (app.py lines 106-120):
`fuel` is the number of remaining iterations of
`for attempt in range(max_retries)`, `retry_delay` the current backoff
delay, `calls` the attempts already made (also the index of the next
upstream call) and `sleeps` the sleeps so far, most recent first. -/
def retryLoop (upstream : Nat → Attempt β) :
    Nat → Nat → Nat → List Nat → FetchTrace β
  | 0, _, calls, sleeps => ⟨.error .retryExhausted, calls, sleeps.reverse⟩
  | fuel + 1, retry_delay, calls, sleeps =>
    match upstream calls with
    | .transport msg => ⟨.error (.transportError msg), calls + 1, sleeps.reverse⟩
    | .resp status body =>
      if isErrorStatus status then
        if status == 429 then
          retryLoop upstream fuel (retry_delay * 2) (calls + 1)
            (retry_delay :: sleeps)
        else
          ⟨.error (.httpError status body), calls + 1, sleeps.reverse⟩
      else
        ⟨.ok ⟨status, body⟩, calls + 1, sleeps.reverse⟩

/-- `get_with_retries(url, headers, max_retries=3)` (app.py lines 104-121),
with the upstream behaviour abstracted as the attempt-indexed function
`upstream`.  `retry_delay` starts at 1 second. -/
def get_with_retries (upstream : Nat → Attempt β) (max_retries : Nat := 3) :
    FetchTrace β :=
  retryLoop upstream max_retries 1 0 []

/-! ## The `/matches` view (app.py lines 126-198) -/

/-- The `league` `SelectField` choices of `LeagueSelectForm`
(app.py lines 127-134). -/
def leagueChoices : List String := ["PL", "SA", "BL1", "FL1", "PD", "EC"]

/-- The `gameweek` `SelectField` choices (app.py lines 135-136):
`str(i)` for `i in range(1, 39)`. -/
def gameweekChoices : List String := (List.range' 1 38).map (fun i => toString i)

/-- The two posted form fields the `/matches` view reads. -/
structure MatchesForm where
  league : String
  gameweek : String
  deriving Repr, DecidableEq

/-- `form.validate_on_submit()` on a POST request with CSRF disabled
(config.py sets `WTF_CSRF_ENABLED = False`): each `SelectField` accepts
exactly the values among its choices (`DataRequired` adds non-emptiness,
which choice membership already implies, every choice being non-empty). -/
def validate_on_submit (form : MatchesForm) : Bool :=
  leagueChoices.contains form.league && gameweekChoices.contains form.gameweek

/-- The `{id, name}` sub-object of `homeTeam` / `awayTeam` in the
upstream JSON. -/
structure TeamRef where
  id : Nat
  name : String
  deriving Repr, DecidableEq

/-- One element of the upstream `matches` array, restricted to the fields
the view reads.  `venue` is optional (the view uses
`match.get('venue', 'N/A')`); the `score` sub-object is passed through
unchanged by the view and is modelled opaquely. -/
structure UpstreamMatch where
  homeTeam : TeamRef
  awayTeam : TeamRef
  utcDate : String
  venue : Option String
  status : String
  score : String
  deriving Repr, DecidableEq

/-- The parsed upstream body `data = response.json()`: `matchesArray`
(named `matches` in the JSON, a Lean keyword here) is `some` exactly when
`'matches' in data` (app.py line 170). -/
structure MatchesData where
  matchesArray : Option (List UpstreamMatch)
  deriving Repr, DecidableEq

/-- The record built per match at app.py lines 172-181. -/
structure MatchSummary where
  homeTeam : String
  homeTeamId : Nat
  awayTeam : String
  awayTeamId : Nat
  utcDate : String
  venue : String
  status : String
  score : String
  deriving Repr, DecidableEq

/-- The dict comprehension body at app.py lines 172-181. -/
def shapeMatch (m : UpstreamMatch) : MatchSummary :=
  { homeTeam := m.homeTeam.name
    homeTeamId := m.homeTeam.id
    awayTeam := m.awayTeam.name
    awayTeamId := m.awayTeam.id
    utcDate := m.utcDate
    venue := m.venue.getD "N/A"
    status := m.status
    score := m.score }

/-- The upstream url built at app.py line 159. -/
def matchesUrl (league gameweek : String) : String :=
  "https://api.football-data.org/v4/competitions/" ++ league ++
    "/matches?matchday=" ++ gameweek

/-- `str(e)` for the exception caught at app.py line 188.  The retry
exhaustion message is the literal from app.py line 121.  For an
`HTTPError`, the `requests` library (external to src/) formats
`"{status} Client Error: {reason} for url: {url}"` (`Server Error` for
5xx); the reason phrase is library data absent from the embedding, so the
scheme below keeps the leading status code, the fixed `Error` text and
the url.  A transport exception keeps its own message. -/
def excMessage (url : String) : FetchError β → String
  | .retryExhausted => "Max retries exceeded"
  | .httpError status _ =>
      toString status ++
        (if status < 500 then " Client Error: for url: "
          else " Server Error: for url: ") ++ url
  | .transportError msg => msg

/-- What a render of `index.html` from the `/matches` view exposes:
`page` is the render at app.py line 192 with its `matches` and `error`
keyword arguments, `formInvalid` the render at line 198 after
`validate_on_submit` returned false (no `matches`/`error` passed). -/
inductive MatchesOutcome where
  | page (matches_info : Option (List MatchSummary)) (error : Option String)
  | formInvalid
  deriving Repr, DecidableEq

/-- A view invocation's observable result: the rendered outcome and the
number of upstream `GET` calls it issued. -/
structure ViewResult where
  outcome : MatchesOutcome
  upstreamCalls : Nat
  deriving Repr, DecidableEq

/-- The body of the `matches` view function (app.py lines 150-198),
with the upstream behaviour abstracted as `upstream`. -/
def matchesView (form : MatchesForm) (upstream : Nat → Attempt MatchesData) :
    ViewResult :=
  if validate_on_submit form then
    let url := matchesUrl form.league form.gameweek
    let tr := get_with_retries upstream
    match tr.result with
    | .ok response =>
      match response.body.matchesArray with
      | some ms => ⟨.page (some (ms.map shapeMatch)) none, tr.calls⟩
      | none =>
        ⟨.page none
          (some "No matches found for the given league code and gameweek."),
          tr.calls⟩
    | .error e => ⟨.page none (some (excMessage url e)), tr.calls⟩
  else
    ⟨.formInvalid, 0⟩

/-! ## The decorator stack and the response cache (app.py lines 57, 148-149)

`Cache(app, config={'CACHE_TYPE': 'simple'})` provides the `cached`
decorator.  `query_string=True` makes the key from the request path and
the (sorted, hashed) URL query parameters `request.args`; the POST form
body `request.form` is not part of the key.  Sorting and hashing do not
change which request data the key depends on and are not modelled. -/

/-- A cache key: request path plus URL query parameters. -/
abbrev CacheKey := String × List (String × String)

/-- An inbound POST /matches request as Flask sees it: URL path and query
parameters, the form body, the client network address, and the current
time in seconds. -/
structure InboundRequest where
  path : String
  queryArgs : List (String × String)
  form : MatchesForm
  remote_addr : String
  now : Nat
  deriving Repr, DecidableEq

/-- The `query_string=True` key derivation: path and query args only. -/
def queryStringKey (req : InboundRequest) : CacheKey :=
  (req.path, req.queryArgs)

/-- A stored cache entry: value and storage time. -/
structure CacheEntry where
  value : MatchesOutcome
  stored_at : Nat
  deriving Repr, DecidableEq

/-- The simple in-process cache, newest entry first; a lookup takes the
most recent entry for a key, so a put overwrites observationally. -/
abbrev CacheState := List (CacheKey × CacheEntry)

/-- First value stored under a key in an association list. -/
def assocFind (key : κ) [DecidableEq κ] : List (κ × ν) → Option ν
  | [] => none
  | (k, v) :: rest => if k = key then some v else assocFind key rest

/-- Cache read with lazy expiry: absent, or present but older than the
timeout, reads as nothing. -/
def cacheGet (cache : CacheState) (key : CacheKey) (now timeout : Nat) :
    Option MatchesOutcome :=
  match assocFind key cache with
  | some entry => if now - entry.stored_at > timeout then none else some entry.value
  | none => none

/-- Cache write: record the value for the key at the current time. -/
def cachePut (cache : CacheState) (key : CacheKey) (v : MatchesOutcome)
    (now : Nat) : CacheState :=
  (key, ⟨v, now⟩) :: cache

/-- A Flask view handler in this model: request and upstream behaviour
in, view result and updated cache out. -/
abbrev Handler :=
  InboundRequest → (Nat → Attempt MatchesData) → CacheState →
    ViewResult × CacheState

/-- The raw `matches` view as a handler: it never touches the cache. -/
def matchesHandler : Handler := fun req upstream cache =>
  (matchesView req.form upstream, cache)

/-- `cache.cached(timeout=300, query_string=True)` as a handler
transformer: on a fresh hit return the stored value with no upstream
call, on a miss run the wrapped handler and store its outcome. -/
def cachedDecorator (timeout : Nat) (mkKey : InboundRequest → CacheKey)
    (h : Handler) : Handler := fun req upstream cache =>
  match cacheGet cache (mkKey req) req.now timeout with
  | some v => (⟨v, 0⟩, cache)
  | none =>
    let (r, cache2) := h req upstream cache
    (r, cachePut cache2 (mkKey req) r.outcome req.now)

/-- Flask's table of registered view functions. -/
structure RouteTable where
  viewFunctions : List (String × Handler)

/-- `app.route(rule)`: registers the decorated function under the rule
and returns that function unchanged. -/
def route (app : RouteTable) (rule : String) (h : Handler) :
    RouteTable × Handler :=
  (⟨(rule, h) :: app.viewFunctions⟩, h)

/-- The decorator stack exactly as written at app.py lines 148-149:
`@cache.cached(timeout=300, query_string=True)` ABOVE
`@app.route('/matches', methods=['POST'])`.  Python applies decorators
bottom-up, so `app.route` runs first, registering the raw view; the
cached wrapper is applied afterwards and is only bound to the module
name, never registered. -/
def matchesRegistration : RouteTable × Handler :=
  let routed := route ⟨[]⟩ "/matches" matchesHandler
  (routed.1, cachedDecorator 300 queryStringKey routed.2)

/-- The module-level binding named `matches` after both decorators. -/
def matchesModuleBinding : Handler := matchesRegistration.2

/-- The handler Flask actually dispatches POST /matches requests to: the
entry in the route table. -/
def dispatchMatches : Handler :=
  (assocFind "/matches" matchesRegistration.1.viewFunctions).getD matchesHandler

/-! ## The admission limiter (app.py lines 60-64)

The source configures
`Limiter(get_remote_address, app=app, default_limits=["200 per day", "50 per hour"])`.
The configured limit strings and the keying by remote address are taken
from src/app.py; the counting discipline itself is the external
`flask_limiter` library, modelled from the spec (section 4.3): one
fixed-size window per (caller, granularity), rolling over at calendar-day
and clock-hour boundaries, a request allowed only when every counter is
below its cap, and each allowed request incrementing every counter. -/

/-- The `default_limits` strings from app.py line 63. -/
def default_limits : List String := ["200 per day", "50 per hour"]

/-- Length in seconds of a fixed window granularity. -/
def windowSeconds : String → Nat
  | "day" => 86400
  | "hour" => 3600
  | _ => 0

/-- Split a character list into space-separated words, accumulating the
current word in reverse. -/
def wordsAux : List Char → List Char → List String
  | [], acc => if acc.isEmpty then [] else [String.mk acc.reverse]
  | c :: cs, acc =>
    if c = ' ' then
      if acc.isEmpty then wordsAux cs []
      else String.mk acc.reverse :: wordsAux cs []
    else wordsAux cs (c :: acc)

/-- The space-separated words of a string. -/
def words (s : String) : List String := wordsAux s.toList []

/-- Read a decimal digit sequence, most significant first. -/
def parseNatAux : List Char → Nat → Option Nat
  | [], acc => some acc
  | c :: cs, acc =>
    if '0' ≤ c && c ≤ '9' then
      parseNatAux cs (acc * 10 + (c.toNat - 48))
    else none

/-- Read a non-empty decimal numeral. -/
def parseNat (s : String) : Option Nat :=
  match s.toList with
  | [] => none
  | cs => parseNatAux cs 0

/-- Parse a limit string of the form `"<amount> per <granularity>"`. -/
def parseLimit (s : String) : Option (Nat × String) :=
  match words s with
  | [amount, "per", unit] => (parseNat amount).map (fun n => (n, unit))
  | _ => none

/-- The configured limits, parsed: cap 200 per day and cap 50 per hour. -/
def parsedLimits : List (Nat × String) := default_limits.filterMap parseLimit

/-- Modelled from the spec: the limiter counters, keyed by caller
identity (remote address), granularity, and window index; newest entry
first, a lookup taking the most recent entry for a key. -/
abbrev LimiterState := List ((String × String × Nat) × Nat)

/-- The current count of a quota window (0 when absent). -/
def windowCount (st : LimiterState) (key : String × String × Nat) : Nat :=
  (assocFind key st).getD 0

/-- Modelled from the spec: a request at time `now` (seconds) from
`addr` is allowed only if every configured counter for the windows
containing `now` is below its cap. -/
def limiterAllow (st : LimiterState) (addr : String) (now : Nat) : Bool :=
  parsedLimits.all (fun lim =>
    windowCount st (addr, lim.2, now / windowSeconds lim.2) < lim.1)

/-- Modelled from the spec: admission check plus the increment of every
counter when the request is allowed; a denied request changes nothing. -/
def limiterHit (st : LimiterState) (addr : String) (now : Nat) :
    Bool × LimiterState :=
  if limiterAllow st addr now then
    (true,
      parsedLimits.foldl (fun acc lim =>
        ((addr, lim.2, now / windowSeconds lim.2),
          windowCount acc (addr, lim.2, now / windowSeconds lim.2) + 1) :: acc)
        st)
  else (false, st)

/-! ## The full request pipeline -/

/-- Outcome of one inbound POST /matches request: either the
`flask_limiter` 429 denial (`QuotaExceeded`), issued before the view
runs, or the view render. -/
inductive RequestOutcome where
  | quotaExceeded
  | handled (v : MatchesOutcome)
  deriving Repr, DecidableEq

/-- Server-side mutable state shared across requests. -/
structure SystemState where
  limiter : LimiterState
  cache : CacheState

/-- The state at process start: no counters, empty cache. -/
def initialState : SystemState := ⟨[], []⟩

/-- One request paired with its observable effect count. -/
structure RequestResult where
  outcome : RequestOutcome
  upstreamCalls : Nat
  deriving Repr, DecidableEq

/-- One inbound POST /matches request end to end: the admission check
runs first; if it passes, Flask dispatches to the registered view
function. -/
def handleRequest (st : SystemState) (req : InboundRequest)
    (upstream : Nat → Attempt MatchesData) : RequestResult × SystemState :=
  let hit := limiterHit st.limiter req.remote_addr req.now
  if hit.1 then
    let dispatched := dispatchMatches req upstream st.cache
    (⟨.handled dispatched.1.outcome, dispatched.1.upstreamCalls⟩,
      ⟨hit.2, dispatched.2⟩)
  else
    (⟨.quotaExceeded, 0⟩, ⟨hit.2, st.cache⟩)

/-- A sequence of requests processed in order. -/
def runRequests (st : SystemState) :
    List (InboundRequest × (Nat → Attempt MatchesData)) →
      List RequestResult × SystemState
  | [] => ([], st)
  | (req, up) :: rest =>
    let r := handleRequest st req up
    let rs := runRequests r.2 rest
    (r.1 :: rs.1, rs.2)

/-! ## Helper lemmas on the retry loop -/

theorem retryLoop_transport_step (upstream : Nat → Attempt β)
    (fuel retry_delay calls : Nat) (sleeps : List Nat) (msg : String)
    (h : upstream calls = .transport msg) :
    retryLoop upstream (fuel + 1) retry_delay calls sleeps =
      ⟨.error (.transportError msg), calls + 1, sleeps.reverse⟩ := by
  rw [retryLoop, h]

theorem retryLoop_429_step (upstream : Nat → Attempt β)
    (fuel retry_delay calls : Nat) (sleeps : List Nat) (b : β)
    (h : upstream calls = .resp 429 b) :
    retryLoop upstream (fuel + 1) retry_delay calls sleeps =
      retryLoop upstream fuel (retry_delay * 2) (calls + 1)
        (retry_delay :: sleeps) := by
  rw [retryLoop, h]
  simp [isErrorStatus]

theorem retryLoop_httpError_step (upstream : Nat → Attempt β)
    (fuel retry_delay calls : Nat) (sleeps : List Nat) (s : Nat) (b : β)
    (h : upstream calls = .resp s b)
    (herr : isErrorStatus s = true) (hne : s ≠ 429) :
    retryLoop upstream (fuel + 1) retry_delay calls sleeps =
      ⟨.error (.httpError s b), calls + 1, sleeps.reverse⟩ := by
  have h4 : (s == 429) = false := by simpa using hne
  rw [retryLoop, h]
  simp [herr, h4]

theorem retryLoop_ok_step (upstream : Nat → Attempt β)
    (fuel retry_delay calls : Nat) (sleeps : List Nat) (s : Nat) (b : β)
    (h : upstream calls = .resp s b)
    (hok : isErrorStatus s = false) :
    retryLoop upstream (fuel + 1) retry_delay calls sleeps =
      ⟨.ok ⟨s, b⟩, calls + 1, sleeps.reverse⟩ := by
  rw [retryLoop, h]
  simp [hok]

theorem retryLoop_calls_lower (upstream : Nat → Attempt β) :
    ∀ (fuel retry_delay calls : Nat) (sleeps : List Nat),
      calls ≤ (retryLoop upstream fuel retry_delay calls sleeps).calls := by
  intro fuel
  induction fuel with
  | zero => intro d c s; exact Nat.le_refl c
  | succ n ih =>
    intro d c s
    cases hu : upstream c with
    | transport msg =>
      rw [retryLoop_transport_step upstream n d c s msg hu]
      exact Nat.le_succ c
    | resp status body =>
      cases herr : isErrorStatus status with
      | false =>
        rw [retryLoop_ok_step upstream n d c s status body hu herr]
        exact Nat.le_succ c
      | true =>
        by_cases h4 : status = 429
        · subst h4
          rw [retryLoop_429_step upstream n d c s body hu]
          exact Nat.le_trans (Nat.le_succ c) (ih _ _ _)
        · rw [retryLoop_httpError_step upstream n d c s status body hu herr h4]
          exact Nat.le_succ c

theorem retryLoop_calls_succ (upstream : Nat → Attempt β)
    (fuel retry_delay calls : Nat) (sleeps : List Nat) :
    calls + 1 ≤ (retryLoop upstream (fuel + 1) retry_delay calls sleeps).calls := by
  cases hu : upstream calls with
  | transport msg =>
    rw [retryLoop_transport_step upstream fuel retry_delay calls sleeps msg hu]
  | resp status body =>
    cases herr : isErrorStatus status with
    | false =>
      rw [retryLoop_ok_step upstream fuel retry_delay calls sleeps status body hu herr]
    | true =>
      by_cases h4 : status = 429
      · subst h4
        rw [retryLoop_429_step upstream fuel retry_delay calls sleeps body hu]
        exact retryLoop_calls_lower upstream fuel _ _ _
      · rw [retryLoop_httpError_step upstream fuel retry_delay calls sleeps
          status body hu herr h4]

theorem retryLoop_ok_status (upstream : Nat → Attempt β) :
    ∀ (fuel retry_delay calls : Nat) (sleeps : List Nat) (r : Response β),
      (retryLoop upstream fuel retry_delay calls sleeps).result = .ok r →
      isErrorStatus r.status = false := by
  intro fuel
  induction fuel with
  | zero => intro d c s r h; simp [retryLoop] at h
  | succ n ih =>
    intro d c s r h
    cases hu : upstream c with
    | transport msg =>
      rw [retryLoop_transport_step upstream n d c s msg hu] at h
      simp at h
    | resp status body =>
      cases herr : isErrorStatus status with
      | false =>
        rw [retryLoop_ok_step upstream n d c s status body hu herr] at h
        simp at h
        subst h
        exact herr
      | true =>
        by_cases h4 : status = 429
        · subst h4
          rw [retryLoop_429_step upstream n d c s body hu] at h
          exact ih _ _ _ r h
        · rw [retryLoop_httpError_step upstream n d c s status body hu herr h4] at h
          simp at h

/-! ## Shared facts about the request pipeline -/

/-- The handler Flask dispatches to is the raw, uncached view: in the
source the `cache.cached` decorator sits above `app.route`, so the route
table holds the unwrapped function. -/
theorem dispatchMatches_eq_raw : dispatchMatches = matchesHandler := rfl

/-- No request ever changes the cache: the registered view never touches
it, and the cached wrapper is never dispatched to. -/
theorem handleRequest_preserves_cache (st : SystemState) (req : InboundRequest)
    (upstream : Nat → Attempt MatchesData) :
    (handleRequest st req upstream).2.cache = st.cache := by
  unfold handleRequest
  by_cases h : (limiterHit st.limiter req.remote_addr req.now).1 = true
  · simp only [h, if_true]
    rfl
  · simp only [h, if_false, Bool.false_eq_true]

/-! ## Claim C10 -/

/-- C10: every call to `get_with_retries` that returns normally (rather
than raising) returns a response on which `raise_for_status` did not
raise, i.e. one whose HTTP status is outside the error range [400, 600);
callers can never receive an error-status response as a successful
result. -/
theorem get_with_retries_ok_non_error_status (upstream : Nat → Attempt β)
    (max_retries : Nat) (r : Response β)
    (h : (get_with_retries upstream max_retries).result = .ok r) :
    isErrorStatus r.status = false :=
  retryLoop_ok_status upstream max_retries 1 0 [] r h

/-- Witness for C10 at a concrete upstream that answers 200. -/
theorem get_with_retries_ok_non_error_status_witness :
    (get_with_retries (fun _ => Attempt.resp 200 "ok")).result =
        .ok ⟨200, "ok"⟩ ∧
      isErrorStatus (Response.mk 200 "ok").status = false :=
  ⟨rfl,
    get_with_retries_ok_non_error_status (fun _ => Attempt.resp 200 "ok") 3
      ⟨200, "ok"⟩ rfl⟩

/-! ## Claim C7 -/

/-- C7: when an attempt returns an HTTP error status other than 429 (any
earlier attempts having been 429s), the retrier fails immediately on that
attempt, surfacing the upstream status and body, and makes no further
upstream calls: the call count is exactly that attempt's index plus
one. -/
theorem http_error_fails_immediately (upstream : Nat → Attempt β)
    (k s : Nat) (b : β) (hk : k < 3)
    (h429 : ∀ i, i < k → ∃ bi, upstream i = Attempt.resp 429 bi)
    (hs : upstream k = Attempt.resp s b)
    (herr : isErrorStatus s = true) (hne : s ≠ 429) :
    (get_with_retries upstream).result = .error (.httpError s b) ∧
      (get_with_retries upstream).calls = k + 1 := by
  unfold get_with_retries
  interval_cases k
  · have e1 : retryLoop upstream 3 1 0 [] =
        ⟨.error (.httpError s b), 1, []⟩ :=
      retryLoop_httpError_step upstream 2 1 0 [] s b hs herr hne
    rw [e1]
    exact ⟨rfl, rfl⟩
  · obtain ⟨b0, h0⟩ := h429 0 (by omega)
    have e1 : retryLoop upstream 3 1 0 [] = retryLoop upstream 2 2 1 [1] :=
      retryLoop_429_step upstream 2 1 0 [] b0 h0
    have e2 : retryLoop upstream 2 2 1 [1] =
        ⟨.error (.httpError s b), 2, [1]⟩ :=
      retryLoop_httpError_step upstream 1 2 1 [1] s b hs herr hne
    rw [e1, e2]
    exact ⟨rfl, rfl⟩
  · obtain ⟨b0, h0⟩ := h429 0 (by omega)
    obtain ⟨b1, h1⟩ := h429 1 (by omega)
    have e1 : retryLoop upstream 3 1 0 [] = retryLoop upstream 2 2 1 [1] :=
      retryLoop_429_step upstream 2 1 0 [] b0 h0
    have e2 : retryLoop upstream 2 2 1 [1] = retryLoop upstream 1 4 2 [2, 1] :=
      retryLoop_429_step upstream 1 2 1 [1] b1 h1
    have e3 : retryLoop upstream 1 4 2 [2, 1] =
        ⟨.error (.httpError s b), 3, [1, 2]⟩ :=
      retryLoop_httpError_step upstream 0 4 2 [2, 1] s b hs herr hne
    rw [e1, e2, e3]
    exact ⟨rfl, rfl⟩

/-- A concrete upstream: 429 on the first attempt, 500 on the second. -/
def oneRateLimitThenServerError : Nat → Attempt String := fun i =>
  if i = 0 then .resp 429 "rate limited" else .resp 500 "server error"

/-- Witness for C7: with a 429 then a 500, the fetch stops at the 500
with exactly two upstream calls. -/
theorem http_error_fails_immediately_witness :
    (get_with_retries oneRateLimitThenServerError).result =
        .error (.httpError 500 "server error") ∧
      (get_with_retries oneRateLimitThenServerError).calls = 2 :=
  http_error_fails_immediately oneRateLimitThenServerError 1 500 "server error"
    (by omega)
    (fun i hi => by interval_cases i; exact ⟨"rate limited", rfl⟩)
    rfl rfl (by omega)

/-! ## Claim C2 -/

/-- Upstream that returns HTTP 429 on the first three attempts and would
succeed with status 200 on a fourth. -/
def threeRateLimitsThenOk : Nat → Attempt String := fun i =>
  if i < 3 then .resp 429 "rate limited" else .resp 200 "payload"

/-- C2 counterexample: against an upstream that is rate limited on three
consecutive attempts and then succeeds, `get_with_retries` makes exactly
3 upstream calls, not 4, sleeps 1, 2 and 4 seconds, and raises
`Max retries exceeded` instead of returning the would-be successful
body: `for attempt in range(max_retries)` with `max_retries = 3` never
issues a fourth call. -/
theorem fourth_call_never_made :
    (get_with_retries threeRateLimitsThenOk).calls = 3 ∧
      (get_with_retries threeRateLimitsThenOk).calls ≠ 4 ∧
      (get_with_retries threeRateLimitsThenOk).result =
        .error .retryExhausted ∧
      (get_with_retries threeRateLimitsThenOk).sleeps = [1, 2, 4] :=
  ⟨rfl, by decide, rfl, rfl⟩

/-- C2 amended: with HTTP 429 on the first two attempts and success on
the third, the fetch makes exactly 3 upstream calls with inter-call
delays of 1 and 2 seconds and returns the successful body; with 429 on
three consecutive attempts the budget is exhausted after exactly 3 calls
and sleeps of 1, 2 and 4 seconds, failing with `Max retries exceeded`;
and in either case nothing is ever stored in the route's cache, whose
wrapper is not the registered view function. -/
theorem backoff_two_429_then_success (upstream : Nat → Attempt β)
    (b0 b1 b : β) (s : Nat)
    (h0 : upstream 0 = .resp 429 b0) (h1 : upstream 1 = .resp 429 b1)
    (h2 : upstream 2 = .resp s b) (hs : isErrorStatus s = false) :
    get_with_retries upstream = ⟨.ok ⟨s, b⟩, 3, [1, 2]⟩ ∧
      (∀ up : Nat → Attempt β,
        (∀ i, i < 3 → ∃ bi, up i = .resp 429 bi) →
        get_with_retries up = ⟨.error .retryExhausted, 3, [1, 2, 4]⟩) ∧
      (∀ (st : SystemState) (req : InboundRequest)
        (u : Nat → Attempt MatchesData),
        (handleRequest st req u).2.cache = st.cache) := by
  refine ⟨?_, ?_, fun st req u => handleRequest_preserves_cache st req u⟩
  · have e1 : retryLoop upstream 3 1 0 [] = retryLoop upstream 2 2 1 [1] :=
      retryLoop_429_step upstream 2 1 0 [] b0 h0
    have e2 : retryLoop upstream 2 2 1 [1] = retryLoop upstream 1 4 2 [2, 1] :=
      retryLoop_429_step upstream 1 2 1 [1] b1 h1
    have e3 : retryLoop upstream 1 4 2 [2, 1] = ⟨.ok ⟨s, b⟩, 3, [1, 2]⟩ :=
      retryLoop_ok_step upstream 0 4 2 [2, 1] s b h2 hs
    unfold get_with_retries
    rw [e1, e2, e3]
  · intro up h
    obtain ⟨c0, g0⟩ := h 0 (by omega)
    obtain ⟨c1, g1⟩ := h 1 (by omega)
    obtain ⟨c2, g2⟩ := h 2 (by omega)
    have e1 : retryLoop up 3 1 0 [] = retryLoop up 2 2 1 [1] :=
      retryLoop_429_step up 2 1 0 [] c0 g0
    have e2 : retryLoop up 2 2 1 [1] = retryLoop up 1 4 2 [2, 1] :=
      retryLoop_429_step up 1 2 1 [1] c1 g1
    have e3 : retryLoop up 1 4 2 [2, 1] = retryLoop up 0 8 3 [4, 2, 1] :=
      retryLoop_429_step up 0 4 2 [2, 1] c2 g2
    unfold get_with_retries
    rw [e1, e2, e3]
    rfl

/-- Upstream rate limited on the first two attempts, then succeeding. -/
def twoRateLimitsThenOk : Nat → Attempt String := fun i =>
  if i < 2 then .resp 429 "rate limited" else .resp 200 "payload"

/-- Witness for the amended C2 at a concrete upstream. -/
theorem backoff_two_429_then_success_witness :
    get_with_retries twoRateLimitsThenOk = ⟨.ok ⟨200, "payload"⟩, 3, [1, 2]⟩ :=
  (backoff_two_429_then_success twoRateLimitsThenOk "rate limited"
    "rate limited" "payload" 200 rfl rfl rfl rfl).1

/-! ## Claim C3 -/

/-- Upstream whose first attempt fails at the transport level. -/
def refusedUpstream : Nat → Attempt String := fun _ =>
  .transport "connection refused"

/-- C3 counterexample: a fetch whose first upstream call fails at the
transport level makes exactly one upstream call and propagates the
transport failure immediately — it is not re-attempted up to the
3-attempt budget, because `except requests.exceptions.HTTPError` does not
catch transport exceptions. -/
theorem transport_error_not_retried :
    (get_with_retries refusedUpstream).calls = 1 ∧
      (get_with_retries refusedUpstream).result =
        .error (.transportError "connection refused") :=
  ⟨rfl, rfl⟩

/-- C3 amended: a transport-level failure is not retryable: the exception
escapes the retry loop on the attempt where it occurs (any earlier
attempts having been 429s), so the fetch fails with the transport error
after exactly that attempt's index plus one upstream calls. -/
theorem transport_failure_propagates (upstream : Nat → Attempt β)
    (k : Nat) (msg : String) (hk : k < 3)
    (h429 : ∀ i, i < k → ∃ bi, upstream i = Attempt.resp 429 bi)
    (hmsg : upstream k = .transport msg) :
    (get_with_retries upstream).result = .error (.transportError msg) ∧
      (get_with_retries upstream).calls = k + 1 := by
  unfold get_with_retries
  interval_cases k
  · have e1 : retryLoop upstream 3 1 0 [] =
        ⟨.error (.transportError msg), 1, []⟩ :=
      retryLoop_transport_step upstream 2 1 0 [] msg hmsg
    rw [e1]
    exact ⟨rfl, rfl⟩
  · obtain ⟨b0, h0⟩ := h429 0 (by omega)
    have e1 : retryLoop upstream 3 1 0 [] = retryLoop upstream 2 2 1 [1] :=
      retryLoop_429_step upstream 2 1 0 [] b0 h0
    have e2 : retryLoop upstream 2 2 1 [1] =
        ⟨.error (.transportError msg), 2, [1]⟩ :=
      retryLoop_transport_step upstream 1 2 1 [1] msg hmsg
    rw [e1, e2]
    exact ⟨rfl, rfl⟩
  · obtain ⟨b0, h0⟩ := h429 0 (by omega)
    obtain ⟨b1, h1⟩ := h429 1 (by omega)
    have e1 : retryLoop upstream 3 1 0 [] = retryLoop upstream 2 2 1 [1] :=
      retryLoop_429_step upstream 2 1 0 [] b0 h0
    have e2 : retryLoop upstream 2 2 1 [1] = retryLoop upstream 1 4 2 [2, 1] :=
      retryLoop_429_step upstream 1 2 1 [1] b1 h1
    have e3 : retryLoop upstream 1 4 2 [2, 1] =
        ⟨.error (.transportError msg), 3, [1, 2]⟩ :=
      retryLoop_transport_step upstream 0 4 2 [2, 1] msg hmsg
    rw [e1, e2, e3]
    exact ⟨rfl, rfl⟩

/-- Witness for the amended C3 at a concrete upstream failing on its
first attempt. -/
theorem transport_failure_propagates_witness :
    (get_with_retries refusedUpstream).result =
        .error (.transportError "connection refused") ∧
      (get_with_retries refusedUpstream).calls = 0 + 1 :=
  transport_failure_propagates refusedUpstream 0 "connection refused"
    (by omega) (fun i hi => absurd hi (by omega)) rfl

/-! ## Claim C8 -/

/-- C8: on a successful matches fetch, every upstream match object is
reshaped into a `MatchSummary` holding exactly homeTeam, homeTeamId,
awayTeam, awayTeamId, utcDate, venue, status and score, and a match with
no `venue` field yields `venue = "N/A"`. -/
theorem matches_are_shaped (form : MatchesForm)
    (upstream : Nat → Attempt MatchesData) (r : Response MatchesData)
    (ms : List UpstreamMatch)
    (hval : validate_on_submit form = true)
    (hres : (get_with_retries upstream).result = .ok r)
    (hms : r.body.matchesArray = some ms) :
    (matchesView form upstream).outcome =
        .page (some (ms.map shapeMatch)) none ∧
      (∀ m ∈ ms, shapeMatch m =
        ⟨m.homeTeam.name, m.homeTeam.id, m.awayTeam.name, m.awayTeam.id,
          m.utcDate, m.venue.getD "N/A", m.status, m.score⟩) ∧
      (∀ m ∈ ms, m.venue = none → (shapeMatch m).venue = "N/A") := by
  refine ⟨?_, fun m _ => rfl, fun m _ hv => by simp [shapeMatch, hv]⟩
  unfold matchesView
  rw [hval]
  simp only [if_true]
  rw [hres]
  simp [hms]

/-- A match record whose upstream JSON has no `venue` field. -/
def venuelessMatch : UpstreamMatch :=
  ⟨⟨57, "Arsenal FC"⟩, ⟨61, "Chelsea FC"⟩, "2024-08-17T14:00:00Z", none,
    "FINISHED", "2-1"⟩

/-- Upstream answering 200 with a single venue-less match. -/
def venuelessUpstream : Nat → Attempt MatchesData := fun _ =>
  .resp 200 ⟨some [venuelessMatch]⟩

/-- Witness for C8: a venue-less upstream match renders with
`venue = "N/A"`. -/
theorem matches_are_shaped_witness :
    (matchesView ⟨"PL", "5"⟩ venuelessUpstream).outcome =
        .page (some ([venuelessMatch].map shapeMatch)) none ∧
      (shapeMatch venuelessMatch).venue = "N/A" :=
  ⟨(matches_are_shaped ⟨"PL", "5"⟩ venuelessUpstream
      ⟨200, ⟨some [venuelessMatch]⟩⟩ [venuelessMatch] rfl rfl rfl).1,
    ((matches_are_shaped ⟨"PL", "5"⟩ venuelessUpstream
      ⟨200, ⟨some [venuelessMatch]⟩⟩ [venuelessMatch] rfl rfl rfl).2.2
      venuelessMatch (by simp) rfl)⟩

/-! ## Claim C6 -/

/-- Every member of the gameweek choice list is the decimal numeral of
some integer in [1, 38]. -/
theorem gameweekChoices_mem (s : String) (h : s ∈ gameweekChoices) :
    ∃ n : Nat, 1 ≤ n ∧ n ≤ 38 ∧ s = toString n := by
  unfold gameweekChoices at h
  rw [List.mem_map] at h
  obtain ⟨n, hn, rfl⟩ := h
  rw [List.mem_range'_1] at hn
  exact ⟨n, hn.1, by omega, rfl⟩

/-- C6: a request whose league code is outside {PL, SA, BL1, FL1, PD, EC}
or whose gameweek is not the numeral of an integer in [1, 38] fails form
validation: the dispatched view renders the validation-failure page,
issues zero upstream calls and leaves the cache untouched. -/
theorem invalid_input_no_network_no_cache (req : InboundRequest)
    (upstream : Nat → Attempt MatchesData) (cache : CacheState)
    (h : req.form.league ∉ leagueChoices ∨
      ∀ n : Nat, 1 ≤ n → n ≤ 38 → req.form.gameweek ≠ toString n) :
    dispatchMatches req upstream cache = (⟨.formInvalid, 0⟩, cache) := by
  have hval : validate_on_submit req.form = false := by
    unfold validate_on_submit
    rcases h with h | h
    · have hc : leagueChoices.contains req.form.league = false := by
        simpa using h
      rw [hc]
      rfl
    · have hm : req.form.gameweek ∉ gameweekChoices := by
        intro hmem
        obtain ⟨n, h1, h2, h3⟩ := gameweekChoices_mem req.form.gameweek hmem
        exact h n h1 h2 h3
      have hc : gameweekChoices.contains req.form.gameweek = false := by
        simpa using hm
      rw [hc]
      simp
  show matchesHandler req upstream cache = _
  unfold matchesHandler matchesView
  rw [hval]
  simp

/-- Witness for C6 at the concrete invalid input of the spec,
`league = "XX"`, `gameweek = "5"`. -/
theorem invalid_input_no_network_no_cache_witness :
    dispatchMatches ⟨"/matches", [], ⟨"XX", "5"⟩, "203.0.113.7", 1000⟩
        (fun _ => .resp 200 ⟨some []⟩) [] =
      (⟨.formInvalid, 0⟩, []) :=
  invalid_input_no_network_no_cache
    ⟨"/matches", [], ⟨"XX", "5"⟩, "203.0.113.7", 1000⟩
    (fun _ => .resp 200 ⟨some []⟩) []
    (Or.inl (by decide))

/-! ## Claim C4 -/

/-- C4: when all retry attempts are exhausted (429 on each of the 3
attempts), the fetch fails with the `retryExhausted` kind, which is a
distinct error kind from the non-429 HTTP failure and from the transport
failure; the matches view does not recover it but surfaces exactly the
`Max retries exceeded` message (app.py line 121) to its caller, and that
message cannot coincide with the message of an HTTP-error failure. -/
theorem retryExhausted_kind_reaches_caller (form : MatchesForm)
    (upstream : Nat → Attempt MatchesData)
    (hval : validate_on_submit form = true)
    (h429 : ∀ i, i < 3 → ∃ bi, upstream i = Attempt.resp 429 bi) :
    (get_with_retries upstream).result =
        .error (.retryExhausted : FetchError MatchesData) ∧
      (matchesView form upstream).outcome =
        .page none (some "Max retries exceeded") ∧
      (∀ (s : Nat) (b : MatchesData),
        (FetchError.retryExhausted : FetchError MatchesData) ≠ .httpError s b) ∧
      (∀ m : String,
        (FetchError.retryExhausted : FetchError MatchesData) ≠
          .transportError m) ∧
      (∀ (url : String) (s : Nat) (b : MatchesData),
        excMessage url (.httpError s b : FetchError MatchesData) ≠
          excMessage url (.retryExhausted : FetchError MatchesData)) := by
  obtain ⟨c0, g0⟩ := h429 0 (by omega)
  obtain ⟨c1, g1⟩ := h429 1 (by omega)
  obtain ⟨c2, g2⟩ := h429 2 (by omega)
  have e1 : retryLoop upstream 3 1 0 [] = retryLoop upstream 2 2 1 [1] :=
    retryLoop_429_step upstream 2 1 0 [] c0 g0
  have e2 : retryLoop upstream 2 2 1 [1] = retryLoop upstream 1 4 2 [2, 1] :=
    retryLoop_429_step upstream 1 2 1 [1] c1 g1
  have e3 : retryLoop upstream 1 4 2 [2, 1] = retryLoop upstream 0 8 3 [4, 2, 1] :=
    retryLoop_429_step upstream 0 4 2 [2, 1] c2 g2
  have hres : (get_with_retries upstream).result =
      .error (.retryExhausted : FetchError MatchesData) := by
    unfold get_with_retries
    rw [e1, e2, e3]
    rfl
  refine ⟨hres, ?_, ?_, ?_, ?_⟩
  · unfold matchesView
    rw [hval]
    simp only [if_true]
    rw [hres]
    rfl
  · intro s b h
    exact FetchError.noConfusion h
  · intro m h
    exact FetchError.noConfusion h
  · intro url s b heq
    have key : ∀ mid : String, ':' ∈ mid.data →
        ':' ∈ (toString s ++ mid ++ url).data := by
      intro mid hm
      rw [String.data_append, String.data_append]
      exact List.mem_append.mpr (Or.inl (List.mem_append.mpr (Or.inr hm)))
    have hc : ':' ∈
        (excMessage url (.httpError s b : FetchError MatchesData)).data := by
      show ':' ∈ (toString s ++
        (if s < 500 then " Client Error: for url: "
          else " Server Error: for url: ") ++ url).data
      by_cases h5 : s < 500
      · rw [if_pos h5]
        exact key _ (by decide)
      · rw [if_neg h5]
        exact key _ (by decide)
    rw [heq] at hc
    have hlit : excMessage url (.retryExhausted : FetchError MatchesData) =
        "Max retries exceeded" := rfl
    rw [hlit] at hc
    exact absurd hc (by decide)

/-- Upstream that is rate limited on every attempt. -/
def alwaysRateLimited : Nat → Attempt MatchesData := fun _ =>
  .resp 429 ⟨none⟩

/-- Witness for C4: with 429 on every attempt and the form (PL, 5), the
exhaustion kind reaches the rendered page. -/
theorem retryExhausted_kind_reaches_caller_witness :
    (get_with_retries alwaysRateLimited).result =
        .error (.retryExhausted : FetchError MatchesData) ∧
      (matchesView ⟨"PL", "5"⟩ alwaysRateLimited).outcome =
        .page none (some "Max retries exceeded") :=
  ⟨(retryExhausted_kind_reaches_caller ⟨"PL", "5"⟩ alwaysRateLimited rfl
      (fun _ _ => ⟨⟨none⟩, rfl⟩)).1,
    (retryExhausted_kind_reaches_caller ⟨"PL", "5"⟩ alwaysRateLimited rfl
      (fun _ _ => ⟨⟨none⟩, rfl⟩)).2.1⟩

/-! ## Claim C5 -/

/-- A validated request always issues at least one upstream call. -/
theorem matchesView_calls_pos (form : MatchesForm)
    (upstream : Nat → Attempt MatchesData)
    (h : validate_on_submit form = true) :
    1 ≤ (matchesView form upstream).upstreamCalls := by
  have hcalls : 1 ≤ (get_with_retries upstream).calls :=
    retryLoop_calls_succ upstream 2 1 0 []
  unfold matchesView
  rw [h]
  simp only [if_true]
  cases hres : (get_with_retries upstream).result with
  | ok r =>
    cases hms : r.body.matchesArray with
    | some ms =>
      simp only [hms]
      exact hcalls
    | none =>
      simp only [hms]
      exact hcalls
  | error e =>
    exact hcalls

/-- C5: no execution ever creates or updates a cache entry (so in
particular no failed fetch does), and any request that passes the
admission limiter and form validation contacts upstream — also when it
repeats an earlier identical request within the TTL window. -/
theorem failed_fetches_never_cached (st : SystemState) (req : InboundRequest)
    (upstream : Nat → Attempt MatchesData) :
    (handleRequest st req upstream).2.cache = st.cache ∧
      ((handleRequest st req upstream).1.outcome ≠ .quotaExceeded →
        validate_on_submit req.form = true →
        1 ≤ (handleRequest st req upstream).1.upstreamCalls) := by
  refine ⟨handleRequest_preserves_cache st req upstream, ?_⟩
  intro hq hval
  unfold handleRequest at hq ⊢
  by_cases h : (limiterHit st.limiter req.remote_addr req.now).1 = true
  · simp only [h, if_true]
    exact matchesView_calls_pos req.form upstream hval
  · simp only [h, if_false, Bool.false_eq_true] at hq
    exact absurd rfl hq

/-- Upstream answering 429 on every attempt, as seen by a failed fetch. -/
def failedFetchRequest : InboundRequest :=
  ⟨"/matches", [], ⟨"PL", "5"⟩, "203.0.113.7", 1000⟩

/-- Witness for C5: a fetch that exhausts its retries leaves the cache
empty, and a second identical request goes upstream again. -/
theorem failed_fetches_never_cached_witness :
    (handleRequest initialState failedFetchRequest alwaysRateLimited).2.cache
        = initialState.cache ∧
      1 ≤ (handleRequest
        (handleRequest initialState failedFetchRequest alwaysRateLimited).2
        failedFetchRequest alwaysRateLimited).1.upstreamCalls :=
  ⟨(failed_fetches_never_cached initialState failedFetchRequest
      alwaysRateLimited).1,
    (failed_fetches_never_cached
      (handleRequest initialState failedFetchRequest alwaysRateLimited).2
      failedFetchRequest alwaysRateLimited).2 (by decide) rfl⟩

/-! ## Claim C1 -/

/-- The spec's example form: Premier League, gameweek 5. -/
def plWeek5 : MatchesForm := ⟨"PL", "5"⟩

/-- A fully populated upstream match. -/
def emiratesMatch : UpstreamMatch :=
  ⟨⟨57, "Arsenal FC"⟩, ⟨61, "Chelsea FC"⟩, "2024-08-17T14:00:00Z",
    some "Emirates Stadium", "TIMED", "0-0"⟩

/-- Upstream answering 200 with one match on every attempt. -/
def okUpstream : Nat → Attempt MatchesData := fun _ =>
  .resp 200 ⟨some [emiratesMatch]⟩

/-- The POST /matches request for (PL, 5) at time `t`, with an empty URL
query string, as Flask sees a form submission. -/
def plRequest (t : Nat) : InboundRequest :=
  ⟨"/matches", [], plWeek5, "203.0.113.7", t⟩

/-- C1 (code bug): two identical (PL, 5) requests 10 seconds apart — far
inside the 300-second TTL — each issue one upstream call, and the cache
stays empty: the `cache.cached` wrapper sits above `app.route`, so the
registered view is the raw uncached function; moreover the
`query_string=True` key depends only on the path and URL query
parameters, never on the posted form, so it cannot incorporate
(league_code, gameweek). -/
theorem second_call_within_ttl_hits_upstream :
    ((runRequests initialState
        [(plRequest 1000, okUpstream), (plRequest 1010, okUpstream)]).1.map
          RequestResult.upstreamCalls = [1, 1]) ∧
      (runRequests initialState
        [(plRequest 1000, okUpstream), (plRequest 1010, okUpstream)]).2.cache
        = [] ∧
      dispatchMatches = matchesHandler ∧
      (∀ (f g : MatchesForm) (path : String)
        (args : List (String × String)) (addr : String) (t : Nat),
        queryStringKey ⟨path, args, f, addr, t⟩ =
          queryStringKey ⟨path, args, g, addr, t⟩) :=
  ⟨rfl, rfl, rfl, fun _ _ _ _ _ _ => rfl⟩

/-! ## Claim C9 -/

/-- The configured limits parse to cap 200 per day and cap 50 per hour. -/
theorem parsedLimits_eq : parsedLimits = [(200, "day"), (50, "hour")] := rfl

theorem windowCount_cons_eq (st : LimiterState) (k : String × String × Nat)
    (v : Nat) : windowCount ((k, v) :: st) k = v := by
  simp [windowCount, assocFind]

theorem windowCount_cons_ne (st : LimiterState) (k k2 : String × String × Nat)
    (v : Nat) (h : k2 ≠ k) :
    windowCount ((k2, v) :: st) k = windowCount st k := by
  simp [windowCount, assocFind, h]

/-- The admission test spelled out for the two configured limits. -/
theorem limiterAllow_iff (st : LimiterState) (addr : String) (t : Nat) :
    limiterAllow st addr t = true ↔
      (windowCount st (addr, "day", t / 86400) < 200 ∧
        windowCount st (addr, "hour", t / 3600) < 50) := by
  unfold limiterAllow
  rw [parsedLimits_eq]
  simp [windowSeconds]

theorem limiterHit_denied (st : LimiterState) (addr : String) (t : Nat)
    (h : limiterAllow st addr t = false) :
    limiterHit st addr t = (false, st) := by
  unfold limiterHit
  rw [h]
  simp

theorem limiterHit_allowed (st : LimiterState) (addr : String) (t : Nat)
    (h : limiterAllow st addr t = true) :
    limiterHit st addr t =
      (true,
        ((addr, "hour", t / 3600),
            windowCount (((addr, "day", t / 86400),
                windowCount st (addr, "day", t / 86400) + 1) :: st)
              (addr, "hour", t / 3600) + 1) ::
          ((addr, "day", t / 86400),
              windowCount st (addr, "day", t / 86400) + 1) :: st) := by
  unfold limiterHit
  rw [h]
  rw [parsedLimits_eq]
  simp [windowSeconds]

/-- An allowed request increments both of the caller's current windows
by exactly one. -/
theorem limiterHit_allowed_counts (st : LimiterState) (addr : String)
    (t : Nat) (h : limiterAllow st addr t = true) :
    windowCount (limiterHit st addr t).2 (addr, "day", t / 86400) =
        windowCount st (addr, "day", t / 86400) + 1 ∧
      windowCount (limiterHit st addr t).2 (addr, "hour", t / 3600) =
        windowCount st (addr, "hour", t / 3600) + 1 := by
  rw [limiterHit_allowed st addr t h]
  have hne : ((addr, "hour", t / 3600) : String × String × Nat) ≠
      (addr, "day", t / 86400) := by simp
  have hne2 : ((addr, "day", t / 86400) : String × String × Nat) ≠
      (addr, "hour", t / 3600) := by simp
  constructor
  · rw [windowCount_cons_ne _ _ _ _ hne, windowCount_cons_eq]
  · rw [windowCount_cons_eq, windowCount_cons_ne _ _ _ _ hne2]

theorem handleRequest_allowed (st : SystemState) (req : InboundRequest)
    (up : Nat → Attempt MatchesData)
    (h : limiterAllow st.limiter req.remote_addr req.now = true) :
    handleRequest st req up =
      (⟨.handled (matchesView req.form up).outcome,
          (matchesView req.form up).upstreamCalls⟩,
        ⟨(limiterHit st.limiter req.remote_addr req.now).2, st.cache⟩) := by
  have h1 : (limiterHit st.limiter req.remote_addr req.now).1 = true := by
    unfold limiterHit
    rw [h]
    simp
  unfold handleRequest
  simp only [h1, if_true]
  rfl

theorem handleRequest_denied (st : SystemState) (req : InboundRequest)
    (up : Nat → Attempt MatchesData)
    (h : limiterAllow st.limiter req.remote_addr req.now = false) :
    handleRequest st req up = (⟨.quotaExceeded, 0⟩, ⟨st.limiter, st.cache⟩) := by
  have h1 : limiterHit st.limiter req.remote_addr req.now =
      (false, st.limiter) := limiterHit_denied _ _ _ h
  unfold handleRequest
  rw [h1]
  simp

theorem runRequests_cons (st : SystemState)
    (p : InboundRequest × (Nat → Attempt MatchesData))
    (rest : List (InboundRequest × (Nat → Attempt MatchesData))) :
    runRequests st (p :: rest) =
      ((handleRequest st p.1 p.2).1 ::
          (runRequests (handleRequest st p.1 p.2).2 rest).1,
        (runRequests (handleRequest st p.1 p.2).2 rest).2) := by
  obtain ⟨req, up⟩ := p
  rfl

/-- Invariant run of the admission limiter: starting from a state whose
two windows for `addr` at the hour of `t0` (and the containing day) both
hold count `c ≤ 50`, a sequence of requests from `addr` all within that
clock hour is answered `handled` while the running count stays below 50
and `quotaExceeded` (with zero upstream calls) from then on,
independently of every request's form, upstream behaviour and of the
cache. -/
theorem runRequests_quota_inv (addr : String) (t0 : Nat) :
    ∀ (reqs : List (InboundRequest × (Nat → Attempt MatchesData)))
      (c : Nat) (lim : LimiterState) (cache : CacheState),
      c ≤ 50 →
      windowCount lim (addr, "day", t0 / 86400) = c →
      windowCount lim (addr, "hour", t0 / 3600) = c →
      (∀ p ∈ reqs, (Prod.fst p).remote_addr = addr) →
      (∀ p ∈ reqs, (Prod.fst p).now / 3600 = t0 / 3600) →
      ∀ i, i < reqs.length →
        ((50 ≤ c + i →
            (runRequests ⟨lim, cache⟩ reqs).1[i]? =
              some ⟨.quotaExceeded, 0⟩) ∧
          (c + i < 50 → ∃ v n,
            (runRequests ⟨lim, cache⟩ reqs).1[i]? =
              some ⟨.handled v, n⟩)) := by
  intro reqs
  induction reqs with
  | nil =>
    intro c lim cache _ _ _ _ _ i hi
    simp at hi
  | cons p rest ih =>
    intro c lim cache hc hday hhourc haddr hhour i hi
    obtain ⟨req, up⟩ := p
    have haddr0 : req.remote_addr = addr := haddr (req, up) (by simp)
    have hhour0 : req.now / 3600 = t0 / 3600 := hhour (req, up) (by simp)
    have hday0 : req.now / 86400 = t0 / 86400 := by
      have e : ∀ m : Nat, m / 86400 = m / 3600 / 24 := fun m => by
        rw [Nat.div_div_eq_div_mul]
      rw [e, e, hhour0]
    rw [runRequests_cons]
    by_cases hlt : c < 50
    · -- below the hourly cap: this request is allowed
      have hallow : limiterAllow lim req.remote_addr req.now = true := by
        rw [haddr0, limiterAllow_iff, hday0, hhour0, hday, hhourc]
        exact ⟨by omega, hlt⟩
      have hstep := handleRequest_allowed ⟨lim, cache⟩ req up hallow
      rw [haddr0] at hstep
      cases i with
      | zero =>
        refine ⟨fun habs => absurd habs (by omega), fun _ => ?_⟩
        rw [hstep]
        exact ⟨(matchesView req.form up).outcome,
          (matchesView req.form up).upstreamCalls, by simp⟩
      | succ j =>
        have hj : j < rest.length := by simpa using hi
        have hcounts := limiterHit_allowed_counts lim addr req.now
          (haddr0 ▸ hallow)
        rw [hday0, hhour0, hday, hhourc] at hcounts
        have hnext := ih (c + 1) (limiterHit lim addr req.now).2 cache
          (by omega) hcounts.1 hcounts.2
          (fun q hq => haddr q (List.mem_cons_of_mem _ hq))
          (fun q hq => hhour q (List.mem_cons_of_mem _ hq))
          j hj
        rw [hstep]
        simp only [List.getElem?_cons_succ]
        have harith : c + (j + 1) = c + 1 + j := by omega
        rw [harith]
        exact hnext
    · -- the hourly window already holds 50: denied, counters unchanged
      have hc50 : c = 50 := by omega
      have hallow : limiterAllow lim req.remote_addr req.now = false := by
        cases hb : limiterAllow lim req.remote_addr req.now with
        | false => rfl
        | true =>
          exfalso
          have := (limiterAllow_iff lim req.remote_addr req.now).mp hb
          rw [haddr0, hday0, hhour0, hday, hhourc] at this
          omega
      have hstep := handleRequest_denied ⟨lim, cache⟩ req up hallow
      cases i with
      | zero =>
        refine ⟨fun _ => ?_, fun habs => absurd habs (by omega)⟩
        rw [hstep]
        simp
      | succ j =>
        have hj : j < rest.length := by simpa using hi
        have hnext := ih c lim cache hc hday hhourc
          (fun q hq => haddr q (List.mem_cons_of_mem _ hq))
          (fun q hq => hhour q (List.mem_cons_of_mem _ hq))
          j hj
        rw [hstep]
        simp only [List.getElem?_cons_succ]
        refine ⟨fun _ => hnext.1 (by omega), fun habs => absurd habs (by omega)⟩

/-- C9: the admission limiter keeps a daily window capped at 200 and an
hourly window capped at 50 per client network address; when one address
issues 51 requests within a single clock hour against a fresh limiter,
the first 50 are admitted and the 51st is denied with the quota-exceeded
outcome and zero upstream calls, whatever each request posts, whatever
the upstream answers and whatever the cache holds. -/
theorem hourly_quota_denies_51st (addr : String) (cache : CacheState)
    (reqs : List (InboundRequest × (Nat → Attempt MatchesData))) (t0 : Nat)
    (hlen : reqs.length = 51)
    (haddr : ∀ p ∈ reqs, (Prod.fst p).remote_addr = addr)
    (hhour : ∀ p ∈ reqs, (Prod.fst p).now / 3600 = t0 / 3600) :
    parsedLimits = [(200, "day"), (50, "hour")] ∧
      (runRequests ⟨[], cache⟩ reqs).1[50]? = some ⟨.quotaExceeded, 0⟩ ∧
      (∀ i, i < 50 → ∃ v n,
        (runRequests ⟨[], cache⟩ reqs).1[i]? = some ⟨.handled v, n⟩) := by
  refine ⟨parsedLimits_eq, ?_, ?_⟩
  · exact (runRequests_quota_inv addr t0 reqs 0 [] cache (by omega) rfl rfl
      haddr hhour 50 (by omega)).1 (by omega)
  · intro i hilt
    exact (runRequests_quota_inv addr t0 reqs 0 [] cache (by omega) rfl rfl
      haddr hhour i (by omega)).2 (by omega)

/-- Witness for C9: 51 identical (PL, 5) requests at one instant from a
single address against a fresh limiter and an empty cache; the 51st is
denied with zero upstream calls. -/
theorem hourly_quota_denies_51st_witness :
    (runRequests ⟨[], []⟩
        (List.replicate 51 (plRequest 1000, okUpstream))).1[50]? =
      some ⟨.quotaExceeded, 0⟩ :=
  (hourly_quota_denies_51st "203.0.113.7" []
    (List.replicate 51 (plRequest 1000, okUpstream)) 1000
    (by simp)
    (fun p hp => by rw [List.eq_of_mem_replicate hp]; rfl)
    (fun p hp => by rw [List.eq_of_mem_replicate hp]; rfl)).2.1
